import Mathlib

/-!
Shallow embedding of the profile-edit route (loader, `ProfileFormSchema`,
action) found in `src/unnamed/part_000` and of the new-note route loader in
`src/exercises/07.roles/03.problem.utils/app/routes/users+/$username_+/notes.new.tsx`.

Machine model:
* a `User` row of the ORM store, a database as a list of rows, and the three
  `prisma.user.findUnique` lookups the route performs;
* the zod schema `ProfileFormSchema` with its `superRefine`, following zod's
  parse statuses: a required string field that is absent makes the object
  parse abort (the refinement does not run), while a present string failing a
  check only marks the parse dirty (the refinement still runs);
* the conform `parse` result (`intent`, `payload`, `value`, field errors);
* the `action` and the two `loader`s, with an explicit trace of database
  operations so statements about which lookups run can be made.
-/

/-- One row of the `User` table, with the fields this slice touches.  The
password hash lives on the related `Password` record in the ORM schema; it is
inlined here as `passwordHash` since the route only ever reads or writes it
through the user it belongs to. -/
structure User where
  id : String
  name : Option String
  username : String
  email : String
  passwordHash : String
deriving Repr, DecidableEq

/-- The database: the list of `User` rows. -/
abbrev Db := List User

/-- `prisma.user.findUnique({ where: { username } })`. -/
def findUserByUsername (db : Db) (username : String) : Option User :=
  db.find? fun u => u.username == username

/-- `prisma.user.findUnique({ where: { email } })`. -/
def findUserByEmail (db : Db) (email : String) : Option User :=
  db.find? fun u => u.email == email

/-- `prisma.user.findUnique({ where: { id } })`. -/
def findUserById (db : Db) (id : String) : Option User :=
  db.find? fun u => u.id == id

/-- Modelled from the spec: the field schemas `nameSchema`, `usernameSchema`,
`passwordSchema` and `emailSchema` are imported from
`~/utils/user-validation.ts`, which is not among the sampled sources.  The
spec says only "name optional, username/email required formats", so each is
modelled as an abstract predicate on the submitted string (each is a zod
string schema whose checks, when they fail on a present string, leave the
parse dirty rather than aborted). -/
structure Schemas where
  nameOk : String → Bool
  usernameOk : String → Bool
  passwordOk : String → Bool
  emailOk : String → Bool

/-- The raw form payload of a POST: each field is present (a string, possibly
empty) or absent, plus the conform intent (`__intent__`, default "submit"). -/
structure FormPayload where
  intent : String
  name : Option String
  username : Option String
  currentPassword : Option String
  newPassword : Option String
  email : Option String
deriving Repr, DecidableEq

/-- The value produced by a successful `ProfileFormSchema` parse: `username`
and `email` are required, the other fields stay optional. -/
structure ProfileValue where
  name : Option String
  username : String
  currentPassword : Option String
  newPassword : Option String
  email : String
deriving Repr, DecidableEq

/-- JavaScript truthiness of an optional string: absent and the empty string
are falsy (`if (newPassword && !currentPassword)`, `data.newPassword ? ... :
undefined`). -/
def optTruthy : Option String → Bool
  | none => false
  | some s => s != ""

/-- A field-level validation issue: path and message. -/
abbrev Issue := String × String

/-- An issue list for a single field check. -/
def fieldIssue (ok : Bool) (path msg : String) : List Issue :=
  if ok then [] else [(path, msg)]

/-- The issues of the base `ProfileFormSchema` object parse, in field
declaration order.  `name` is `nameSchema.optional()`; `username` and `email`
are required; `currentPassword` and `newPassword` are
`z.union([passwordSchema, z.string().min(0).max(0)]).optional()`, so a present
value must satisfy the password schema or be the empty string.  (The message
texts of the field schemas are not in the sampled sources; placeholders are
used, the route's own messages are the literal ones below in `refineChecks`.) -/
def baseIssues (S : Schemas) (f : FormPayload) : List Issue :=
  (match f.name with
    | none => []
    | some n => fieldIssue (S.nameOk n) "name" "Invalid name") ++
  (match f.username with
    | none => [("username", "Required")]
    | some u => fieldIssue (S.usernameOk u) "username" "Invalid username") ++
  (match f.currentPassword with
    | none => []
    | some s => fieldIssue (S.passwordOk s || s == "") "currentPassword" "Invalid password") ++
  (match f.newPassword with
    | none => []
    | some s => fieldIssue (S.passwordOk s || s == "") "newPassword" "Invalid password") ++
  (match f.email with
    | none => [("email", "Required")]
    | some e => fieldIssue (S.emailOk e) "email" "Invalid email")

/-- The object parse aborts (zod `INVALID`, so `superRefine` never runs) iff a
required string field is absent: a missing `username` or `email` is a type
error on that key, and any key-level abort makes the whole object abort. -/
def baseAborted (f : FormPayload) : Bool :=
  f.username.isNone || f.email.isNone

/-- The parsed object handed to the refinement when the base parse did not
abort (dirty fields keep their raw string value in zod). -/
def toProfileValue (f : FormPayload) : ProfileValue :=
  { name := f.name
    username := f.username.getD ""
    currentPassword := f.currentPassword
    newPassword := f.newPassword
    email := f.email.getD "" }

/-- A database operation performed by a handler, for tracing which lookups and
writes actually run. -/
inductive DbOp where
  | findByUsername (username : String)
  | findByEmail (email : String)
  | findById (id : String)
  | updateUser (id : String)
deriving Repr, DecidableEq

/-- Modelled from the spec: `verifyUserPassword` is defined in
`~/utils/auth.server.ts`, which is not among the sampled sources.  It looks
the user up by its unique `id` (together with the stored password hash) and
compares the supplied password against that hash, returning the user (its id)
on success and null otherwise; the hash comparison itself is the abstract
parameter `verify`. -/
def verifyUserPassword (verify : String → String → Bool) (db : Db)
    (userId password : String) : Option String :=
  match findUserById db userId with
  | none => none
  | some u => if verify password u.passwordHash then some u.id else none

/-- The `superRefine` body: the username uniqueness lookup, the email
uniqueness lookup, the `newPassword`-without-`currentPassword` check, and the
current-password verification (which performs one more lookup, inside
`verifyUserPassword`).  Returns the custom issues added and the trace of
database operations, in program order. -/
def refineChecks (verify : String → String → Bool) (db : Db) (userId : String)
    (v : ProfileValue) : List Issue × List DbOp :=
  let usernameIssues :=
    match findUserByUsername db v.username with
    | some existing =>
        if existing.id == userId then []
        else [("username", "A user already exists with this username")]
    | none => []
  let emailIssues :=
    match findUserByEmail db v.email with
    | some existing =>
        if existing.id == userId then []
        else [("email", "A user already exists with this email")]
    | none => []
  let pairIssues :=
    if optTruthy v.newPassword && !optTruthy v.currentPassword then
      [("newPassword", "Must provide current password to change password.")]
    else []
  let verifyIssues :=
    if optTruthy v.currentPassword && optTruthy v.newPassword then
      match verifyUserPassword verify db userId (v.currentPassword.getD "") with
      | none => [("currentPassword", "Incorrect password.")]
      | some _ => []
    else []
  let verifyTrace :=
    if optTruthy v.currentPassword && optTruthy v.newPassword then
      [DbOp.findById userId]
    else []
  (usernameIssues ++ emailIssues ++ pairIssues ++ verifyIssues,
   [DbOp.findByUsername v.username, DbOp.findByEmail v.email] ++ verifyTrace)

/-- The conform submission: intent, raw payload, the parsed value when
validation succeeded, and the field errors. -/
structure Submission where
  intent : String
  payload : FormPayload
  value : Option ProfileValue
  errors : List Issue
deriving Repr, DecidableEq

/-- `parse(formData, { async: true, schema: ProfileFormSchema.superRefine(...) })`:
if the base object parse aborted, only its issues are reported and the
refinement (with its lookups) never runs; otherwise the refinement issues are
appended and the submission carries a value exactly when no issue was raised. -/
def parseProfileSubmission (S : Schemas) (verify : String → String → Bool)
    (db : Db) (userId : String) (f : FormPayload) : Submission × List DbOp :=
  if baseAborted f then
    ({ intent := f.intent, payload := f, value := none, errors := baseIssues S f }, [])
  else
    let v := toProfileValue f
    let r := refineChecks verify db userId v
    let issues := baseIssues S f ++ r.1
    ({ intent := f.intent
       payload := f
       value := if issues.isEmpty then some v else none
       errors := issues }, r.2)

/-- `delete submission.payload.currentPassword; delete submission.payload.newPassword`. -/
def scrubPayload (f : FormPayload) : FormPayload :=
  { f with currentPassword := none, newPassword := none }

/-- `delete submission.value?.currentPassword; delete submission.value?.newPassword`. -/
def scrubValue (v : ProfileValue) : ProfileValue :=
  { v with currentPassword := none, newPassword := none }

/-- Modelled from the spec: `requireUserId` (from `~/utils/auth.server.ts`,
not among the sampled sources) reads the session cookie and throws a redirect
to the login page when there is no authenticated user; the spec says both
routes "requir[e] an authenticated session cookie".  A request is therefore
modelled as the optional session user id together with the form payload. -/
structure Request where
  session : Option String
  form : FormPayload
deriving Repr, DecidableEq

/-- The responses the profile-edit action can produce. -/
inductive ActionResult where
  /-- `requireUserId` threw: redirect to the login page, nothing else ran. -/
  | authRequired
  /-- `json({ status: 'idle', submission })` for a non-submit intent. -/
  | idle (sub : Submission)
  /-- `json({ status: 'error', submission }, { status })` on failed validation. -/
  | error (status : Nat) (sub : Submission)
  /-- `prisma.user.update` threw because no row matched the id. -/
  | updateFailed
  /-- `redirect(location, { status })`. -/
  | redirect (status : Nat) (location : String)
deriving Repr, DecidableEq

/-- Result, resulting database, and trace of database operations of one run of
the action. -/
structure ActionOutcome where
  result : ActionResult
  db : Db
  trace : List DbOp
deriving Repr, DecidableEq

/-- The row update of `prisma.user.update`: `name: data.name` leaves the
stored name unchanged when `data.name` is `undefined` (Prisma skips
`undefined` fields); the password hash is rewritten to the hash of
`newPassword` only when `data.newPassword` is truthy. -/
def applyUpdate (hash : String → String) (userId : String) (data : ProfileValue)
    (u : User) : User :=
  if u.id == userId then
    { u with
      name := match data.name with
        | some n => some n
        | none => u.name
      username := data.username
      email := data.email
      passwordHash :=
        if optTruthy data.newPassword then hash (data.newPassword.getD "")
        else u.passwordHash }
  else u

/-- The profile-edit `action` (`src/unnamed/part_000`, lines 56-136):
require a user id, parse the form against the refined schema, strip the
password fields from the payload, return idle for a non-submit intent, a 400
error when validation failed, and otherwise update the user and redirect with
status 302 to `/users/` followed by the updated row's username (which the
update just set to the submitted one). -/
def action (S : Schemas) (verify : String → String → Bool)
    (getPasswordHash : String → String) (db : Db) (req : Request) : ActionOutcome :=
  match req.session with
  | none => ⟨.authRequired, db, []⟩
  | some userId =>
    let p := parseProfileSubmission S verify db userId req.form
    let sub : Submission := { p.1 with payload := scrubPayload p.1.payload }
    if sub.intent != "submit" then
      ⟨.idle { sub with value := sub.value.map scrubValue }, db, p.2⟩
    else
      match sub.value with
      | none => ⟨.error 400 sub, db, p.2⟩
      | some data =>
        match findUserById db userId with
        | none => ⟨.updateFailed, db, p.2 ++ [DbOp.updateUser userId]⟩
        | some _ =>
          ⟨.redirect 302 ("/users/" ++ data.username),
           db.map (applyUpdate getPasswordHash userId data),
           p.2 ++ [DbOp.updateUser userId]⟩

/-- The user data the profile-edit loader selects and returns (the `image`
relation lives in its own table and only its id is selected; it is outside
this model of the `User` rows). -/
structure UserView where
  id : String
  name : Option String
  username : String
  email : String
deriving Repr, DecidableEq

/-- The responses the profile-edit loader can produce. -/
inductive LoaderResult where
  /-- `requireUserId` threw: redirect to the login page. -/
  | authRequired
  /-- `throw await authenticator.logout(request, { redirectTo: '/' })`. -/
  | logoutRedirect (target : String)
  /-- `json({ user })`. -/
  | ok (user : UserView)
deriving Repr, DecidableEq

/-- The profile-edit `loader` (`src/unnamed/part_000`, lines 35-54), with its
trace of database operations: require a user id, look the user up by id, throw
a logout redirect to `/` when no row matches, otherwise return the selected
fields. -/
def loader (db : Db) (req : Request) : LoaderResult × List DbOp :=
  match req.session with
  | none => (.authRequired, [])
  | some userId =>
    match findUserById db userId with
    | none => (.logoutRedirect "/", [DbOp.findById userId])
    | some u => (.ok ⟨u.id, u.name, u.username, u.email⟩, [DbOp.findById userId])

/-- The responses the new-note loader can produce. -/
inductive NotesNewResult where
  /-- `requireUserId` threw: redirect to the login page. -/
  | authRequired
  /-- `json({})`. -/
  | ok
deriving Repr, DecidableEq

/-- The new-note route `loader` (`notes.new.tsx`): require a user id, then
return an empty json body; no database operation is performed. -/
def notesNewLoader (req : Request) : NotesNewResult × List DbOp :=
  match req.session with
  | none => (.authRequired, [])
  | some _ => (.ok, [])

/-- The field errors carried by an action response (empty for responses that
carry no submission). -/
def actionErrors : ActionResult → List Issue
  | .idle s => s.errors
  | .error _ s => s.errors
  | _ => []

/-- No action response echoes a submitted password back: any submission it
carries has the password fields removed from the payload, and an idle
response's parsed value has them removed as well. -/
def noPasswordEcho : ActionResult → Prop
  | .idle s => s.payload.currentPassword = none ∧ s.payload.newPassword = none ∧
      ∀ v, s.value = some v → v.currentPassword = none ∧ v.newPassword = none
  | .error _ s => s.payload.currentPassword = none ∧ s.payload.newPassword = none
  | _ => True

/-! ### Concrete fixtures for witnesses and counterexamples -/

/-- A schema assignment whose field checks accept every string. -/
def allOkSchemas : Schemas :=
  ⟨fun _ => true, fun _ => true, fun _ => true, fun _ => true⟩

/-- A schema assignment with real rejections: nonempty name, username and
email, passwords of length at least 6 — enough to exercise the
empty-string branch of the password unions. -/
def strictSchemas : Schemas :=
  ⟨fun n => n != "", fun u => u != "", fun p => decide (6 ≤ p.length), fun e => e != ""⟩

/-- A hash comparison that accepts everything. -/
def acceptAll : String → String → Bool := fun _ _ => true

/-- A hash comparison that rejects everything. -/
def rejectAll : String → String → Bool := fun _ _ => false

/-- A submit payload missing the required `username` field. -/
def formNoUsername : FormPayload :=
  { intent := "submit", name := none, username := none,
    currentPassword := none, newPassword := none, email := some "kody@kcd.dev" }

/-- A fully valid submit payload with no password change. -/
def formPlain : FormPayload :=
  { intent := "submit", name := some "Kody", username := some "kody",
    currentPassword := none, newPassword := none, email := some "kody@kcd.dev" }

/-- A submit payload whose username is taken but whose required `email`
field is missing. -/
def formTakenNoEmail : FormPayload :=
  { intent := "submit", name := none, username := some "kody",
    currentPassword := none, newPassword := none, email := none }

/-- A submit payload with a new password, no current password, and the
required `email` field missing. -/
def formNewPwNoEmail : FormPayload :=
  { intent := "submit", name := none, username := some "kody",
    currentPassword := none, newPassword := some "hunter2hunter2", email := none }

/-- A submit payload omitting only the optional `name` (and sending the
empty string for `currentPassword`). -/
def formNoName : FormPayload :=
  { intent := "submit", name := none, username := some "kody",
    currentPassword := some "", newPassword := none, email := some "kody@kcd.dev" }

/-- A submit payload changing the password. -/
def formNewPw : FormPayload :=
  { intent := "submit", name := some "Kody", username := some "kody",
    currentPassword := some "oldpass", newPassword := some "newpass", email := some "kody@kcd.dev" }

/-- A single-user database. -/
def dbKody : Db :=
  [{ id := "u1", name := some "Kody", username := "kody",
     email := "kody@kcd.dev", passwordHash := "h1" }]

/-- A database holding a different user (`u2`) who owns the username `kody`
and the email `kody@kcd.dev`. -/
def dbOther : Db :=
  [{ id := "u2", name := none, username := "kody",
     email := "kody@kcd.dev", passwordHash := "h2" }]

/-- A complete submit payload whose username is owned by another user of
`dbOther` but whose email is fresh. -/
def formTaken : FormPayload :=
  { intent := "submit", name := none, username := some "kody",
    currentPassword := none, newPassword := some "", email := some "other@kcd.dev" }

/-- A complete submit payload with a non-empty new password and no current
password. -/
def formNpNoCp : FormPayload :=
  { intent := "submit", name := none, username := some "kody",
    currentPassword := none, newPassword := some "newpass", email := some "kody@kcd.dev" }

/-! ### Helper lemmas about the parse -/

lemma parse_fst_intent (S : Schemas) (verify : String → String → Bool) (db : Db)
    (userId : String) (f : FormPayload) :
    (parseProfileSubmission S verify db userId f).1.intent = f.intent := by
  unfold parseProfileSubmission
  split <;> rfl

lemma parse_fst_payload (S : Schemas) (verify : String → String → Bool) (db : Db)
    (userId : String) (f : FormPayload) :
    (parseProfileSubmission S verify db userId f).1.payload = f := by
  unfold parseProfileSubmission
  split <;> rfl

lemma parse_not_aborted (S : Schemas) (verify : String → String → Bool) (db : Db)
    (userId : String) (f : FormPayload) (hab : baseAborted f = false) :
    parseProfileSubmission S verify db userId f =
      ({ intent := f.intent
         payload := f
         value :=
           if (baseIssues S f ++ (refineChecks verify db userId (toProfileValue f)).1).isEmpty
           then some (toProfileValue f) else none
         errors := baseIssues S f ++ (refineChecks verify db userId (toProfileValue f)).1 },
       (refineChecks verify db userId (toProfileValue f)).2) := by
  unfold parseProfileSubmission
  simp [hab]

lemma parse_value_some_iff (S : Schemas) (verify : String → String → Bool) (db : Db)
    (userId : String) (f : FormPayload) (v : ProfileValue) (hab : baseAborted f = false) :
    (parseProfileSubmission S verify db userId f).1.value = some v ↔
      baseIssues S f ++ (refineChecks verify db userId (toProfileValue f)).1 = [] ∧
        v = toProfileValue f := by
  rw [parse_not_aborted S verify db userId f hab]
  by_cases h : baseIssues S f ++ (refineChecks verify db userId (toProfileValue f)).1 = []
  · simp [h, eq_comm]
  · simp [h, List.isEmpty_iff]

lemma parse_aborted_value_none (S : Schemas) (verify : String → String → Bool) (db : Db)
    (userId : String) (f : FormPayload) (hab : baseAborted f = true) :
    (parseProfileSubmission S verify db userId f).1.value = none := by
  unfold parseProfileSubmission
  simp [hab]

lemma refine_nil_password_facts (verify : String → String → Bool) (db : Db)
    (userId : String) (v : ProfileValue)
    (h : (refineChecks verify db userId v).1 = [])
    (hnp : optTruthy v.newPassword = true) :
    optTruthy v.currentPassword = true ∧
      verifyUserPassword verify db userId (v.currentPassword.getD "") ≠ none := by
  simp only [refineChecks, List.append_eq_nil] at h
  obtain ⟨⟨⟨h1, h2⟩, h3⟩, h4⟩ := h
  by_cases hcp : optTruthy v.currentPassword
  · refine ⟨hcp, ?_⟩
    rw [hcp, hnp] at h4
    simp only [Bool.and_self, if_true] at h4
    cases hver : verifyUserPassword verify db userId (v.currentPassword.getD "")
    · rw [hver] at h4
      simp at h4
    · simp [hver]
  · rw [hnp, Bool.eq_false_iff.mpr hcp] at h3
    simp at h3

lemma refine_username_dup_mem (verify : String → String → Bool) (db : Db)
    (userId : String) (v : ProfileValue) (w : User)
    (hw : findUserByUsername db v.username = some w) (hne : w.id ≠ userId) :
    ("username", "A user already exists with this username") ∈
      (refineChecks verify db userId v).1 := by
  have hbeq : (w.id == userId) = false := by simp [hne]
  simp [refineChecks, hw, hbeq]

lemma refine_email_dup_mem (verify : String → String → Bool) (db : Db)
    (userId : String) (v : ProfileValue) (w : User)
    (hw : findUserByEmail db v.email = some w) (hne : w.id ≠ userId) :
    ("email", "A user already exists with this email") ∈
      (refineChecks verify db userId v).1 := by
  have hbeq : (w.id == userId) = false := by simp [hne]
  simp [refineChecks, hw, hbeq]

lemma action_submit_redirect (S : Schemas) (verify : String → String → Bool)
    (hash : String → String) (db : Db) (userId : String) (f : FormPayload)
    (data : ProfileValue) (w : User) (hi : f.intent = "submit")
    (hv : (parseProfileSubmission S verify db userId f).1.value = some data)
    (hw : findUserById db userId = some w) :
    action S verify hash db ⟨some userId, f⟩ =
      ⟨.redirect 302 ("/users/" ++ data.username),
       db.map (applyUpdate hash userId data),
       (parseProfileSubmission S verify db userId f).2 ++ [DbOp.updateUser userId]⟩ := by
  have hbne : ((parseProfileSubmission S verify db userId f).1.intent != "submit") = false := by
    rw [parse_fst_intent, hi]
    simp
  simp only [action, hbne, hv, hw, Bool.false_eq_true, if_false]

lemma action_value_none (S : Schemas) (verify : String → String → Bool)
    (hash : String → String) (db : Db) (userId : String) (f : FormPayload)
    (hv : (parseProfileSubmission S verify db userId f).1.value = none) :
    actionErrors (action S verify hash db ⟨some userId, f⟩).result =
        (parseProfileSubmission S verify db userId f).1.errors ∧
      (action S verify hash db ⟨some userId, f⟩).db = db ∧
      (∀ st loc, (action S verify hash db ⟨some userId, f⟩).result ≠ .redirect st loc) ∧
      (f.intent = "submit" →
        ∃ s, (action S verify hash db ⟨some userId, f⟩).result = .error 400 s ∧
          s.errors = (parseProfileSubmission S verify db userId f).1.errors) := by
  by_cases hi : f.intent = "submit"
  · have hbne : ((parseProfileSubmission S verify db userId f).1.intent != "submit") = false := by
      rw [parse_fst_intent, hi]
      simp
    simp only [action, hbne, hv, Bool.false_eq_true, if_false]
    refine ⟨?_, ?_, ?_, ?_⟩
    · rfl
    · trivial
    · simp
    · exact fun _ => ⟨_, rfl, rfl⟩
  · have hbne : ((parseProfileSubmission S verify db userId f).1.intent != "submit") = true := by
      rw [parse_fst_intent]
      simpa using hi
    simp only [action, hbne, if_true]
    refine ⟨?_, ?_, ?_, fun h => absurd h hi⟩ <;>
      first | rfl | trivial | simp [actionErrors, hv]

lemma refine_trace_shape (verify : String → String → Bool) (db : Db)
    (userId : String) (v : ProfileValue) :
    (refineChecks verify db userId v).2 =
      [DbOp.findByUsername v.username, DbOp.findByEmail v.email] ++
        (if optTruthy v.currentPassword && optTruthy v.newPassword
         then [DbOp.findById userId] else []) := rfl

lemma action_not_submit (S : Schemas) (verify : String → String → Bool)
    (hash : String → String) (db : Db) (userId : String) (f : FormPayload)
    (hi : f.intent ≠ "submit") :
    action S verify hash db ⟨some userId, f⟩ =
      ⟨.idle { intent := f.intent
               payload := scrubPayload f
               value := ((parseProfileSubmission S verify db userId f).1.value).map scrubValue
               errors := (parseProfileSubmission S verify db userId f).1.errors },
       db, (parseProfileSubmission S verify db userId f).2⟩ := by
  have hbne : (f.intent != "submit") = true := by simpa using hi
  simp only [action, parse_fst_intent, parse_fst_payload, hbne, if_true]

lemma parse_value_none_errors_ne (S : Schemas) (verify : String → String → Bool)
    (db : Db) (userId : String) (f : FormPayload)
    (hv : (parseProfileSubmission S verify db userId f).1.value = none) :
    (parseProfileSubmission S verify db userId f).1.errors ≠ [] := by
  by_cases hab : baseAborted f = true
  · have hone : f.username = none ∨ f.email = none := by
      simpa [baseAborted, Option.isNone_iff_eq_none, Bool.or_eq_true] using hab
    unfold parseProfileSubmission
    simp only [hab, if_true]
    rcases hone with h | h
    · have : ("username", "Required") ∈ baseIssues S f := by
        simp [baseIssues, h]
      exact fun hnil => by simp [hnil] at this
    · have : ("email", "Required") ∈ baseIssues S f := by
        simp [baseIssues, h]
      exact fun hnil => by simp [hnil] at this
  · have hab' : baseAborted f = false := by simpa using hab
    rw [parse_not_aborted S verify db userId f hab'] at hv ⊢
    dsimp only at hv ⊢
    intro hnil
    rw [hnil] at hv
    simp at hv

lemma action_submit_value_none (S : Schemas) (verify : String → String → Bool)
    (hash : String → String) (db : Db) (userId : String) (f : FormPayload)
    (hi : f.intent = "submit")
    (hv : (parseProfileSubmission S verify db userId f).1.value = none) :
    action S verify hash db ⟨some userId, f⟩ =
      ⟨.error 400 { intent := f.intent
                    payload := scrubPayload f
                    value := none
                    errors := (parseProfileSubmission S verify db userId f).1.errors },
       db, (parseProfileSubmission S verify db userId f).2⟩ := by
  have hbne : (f.intent != "submit") = false := by simp [hi]
  simp only [action, hbne, hv, Bool.false_eq_true, if_false, parse_fst_intent, parse_fst_payload]

lemma action_submit_no_user (S : Schemas) (verify : String → String → Bool)
    (hash : String → String) (db : Db) (userId : String) (f : FormPayload)
    (data : ProfileValue) (hi : f.intent = "submit")
    (hv : (parseProfileSubmission S verify db userId f).1.value = some data)
    (hw : findUserById db userId = none) :
    action S verify hash db ⟨some userId, f⟩ =
      ⟨.updateFailed, db,
       (parseProfileSubmission S verify db userId f).2 ++ [DbOp.updateUser userId]⟩ := by
  have hbne : ((parseProfileSubmission S verify db userId f).1.intent != "submit") = false := by
    rw [parse_fst_intent, hi]
    simp
  simp only [action, hbne, hv, hw, Bool.false_eq_true, if_false]

lemma action_result_cases (S : Schemas) (verify : String → String → Bool)
    (hash : String → String) (db : Db) (userId : String) (f : FormPayload) :
    (∃ s, (action S verify hash db ⟨some userId, f⟩).result = .idle s ∧
        (action S verify hash db ⟨some userId, f⟩).db = db ∧
        (action S verify hash db ⟨some userId, f⟩).trace =
          (parseProfileSubmission S verify db userId f).2) ∨
    (∃ s, (action S verify hash db ⟨some userId, f⟩).result = .error 400 s ∧
        s.errors ≠ [] ∧ (action S verify hash db ⟨some userId, f⟩).db = db ∧
        (action S verify hash db ⟨some userId, f⟩).trace =
          (parseProfileSubmission S verify db userId f).2) ∨
    ((action S verify hash db ⟨some userId, f⟩).result = .updateFailed ∧
        (action S verify hash db ⟨some userId, f⟩).db = db ∧
        (action S verify hash db ⟨some userId, f⟩).trace =
          (parseProfileSubmission S verify db userId f).2 ++ [DbOp.updateUser userId]) ∨
    (∃ data, (action S verify hash db ⟨some userId, f⟩).result =
          .redirect 302 ("/users/" ++ data.username) ∧
        (action S verify hash db ⟨some userId, f⟩).db =
          db.map (applyUpdate hash userId data) ∧
        (action S verify hash db ⟨some userId, f⟩).trace =
          (parseProfileSubmission S verify db userId f).2 ++ [DbOp.updateUser userId]) := by
  by_cases hi : f.intent = "submit"
  · cases hv : (parseProfileSubmission S verify db userId f).1.value with
    | none =>
        refine Or.inr (Or.inl ?_)
        rw [action_submit_value_none S verify hash db userId f hi hv]
        exact ⟨_, rfl, parse_value_none_errors_ne S verify db userId f hv, rfl, rfl⟩
    | some data =>
        cases hw : findUserById db userId with
        | none =>
            refine Or.inr (Or.inr (Or.inl ?_))
            rw [action_submit_no_user S verify hash db userId f data hi hv hw]
            exact ⟨rfl, rfl, rfl⟩
        | some w =>
            refine Or.inr (Or.inr (Or.inr ⟨data, ?_⟩))
            rw [action_submit_redirect S verify hash db userId f data w hi hv hw]
            exact ⟨rfl, rfl, rfl⟩
  · left
    rw [action_not_submit S verify hash db userId f hi]
    exact ⟨_, rfl, rfl, rfl⟩

lemma refine_pair_mem (verify : String → String → Bool) (db : Db)
    (userId : String) (v : ProfileValue)
    (hnp : optTruthy v.newPassword = true) (hcp : optTruthy v.currentPassword = false) :
    ("newPassword", "Must provide current password to change password.") ∈
      (refineChecks verify db userId v).1 := by
  simp [refineChecks, hnp, hcp]

lemma refine_verify_mem (verify : String → String → Bool) (db : Db)
    (userId : String) (v : ProfileValue)
    (hcp : optTruthy v.currentPassword = true) (hnp : optTruthy v.newPassword = true)
    (hver : verifyUserPassword verify db userId (v.currentPassword.getD "") = none) :
    ("currentPassword", "Incorrect password.") ∈ (refineChecks verify db userId v).1 := by
  simp [refineChecks, hcp, hnp, hver]

lemma action_mem_refine_errors (S : Schemas) (verify : String → String → Bool)
    (hash : String → String) (db : Db) (userId : String) (f : FormPayload)
    (issue : Issue) (hab : baseAborted f = false)
    (hmem : issue ∈ (refineChecks verify db userId (toProfileValue f)).1) :
    issue ∈ actionErrors (action S verify hash db ⟨some userId, f⟩).result ∧
      (action S verify hash db ⟨some userId, f⟩).db = db ∧
      (∀ st loc, (action S verify hash db ⟨some userId, f⟩).result ≠ .redirect st loc) ∧
      (f.intent = "submit" →
        ∃ s, (action S verify hash db ⟨some userId, f⟩).result = .error 400 s) := by
  have hissues : baseIssues S f ++ (refineChecks verify db userId (toProfileValue f)).1 ≠ [] := by
    intro hnil
    rw [(List.append_eq_nil.mp hnil).2] at hmem
    exact List.not_mem_nil _ hmem
  have hv : (parseProfileSubmission S verify db userId f).1.value = none := by
    rw [parse_not_aborted S verify db userId f hab]
    dsimp only
    simp [List.isEmpty_iff, hissues]
  have herr : (parseProfileSubmission S verify db userId f).1.errors =
      baseIssues S f ++ (refineChecks verify db userId (toProfileValue f)).1 := by
    rw [parse_not_aborted S verify db userId f hab]
  have h := action_value_none S verify hash db userId f hv
  refine ⟨?_, h.2.1, h.2.2.1, fun hi => ?_⟩
  · rw [h.1, herr]
    exact List.mem_append_right _ hmem
  · obtain ⟨s, hs, _⟩ := h.2.2.2 hi
    exact ⟨s, hs⟩

/-! ### Claim theorems -/

/-- C5: every request handler in this slice — the profile-edit loader, the
profile-edit action and the new-note loader — requires an authenticated
session first: on an unauthenticated request each returns the login redirect
thrown by `requireUserId`, performs no database operation, parses and
validates nothing, and leaves the database unchanged. -/
theorem handlers_require_auth (S : Schemas) (verify : String → String → Bool)
    (hash : String → String) (db : Db) (req : Request) (hs : req.session = none) :
    action S verify hash db req = ⟨.authRequired, db, []⟩ ∧
      loader db req = (.authRequired, []) ∧
      notesNewLoader req = (.authRequired, []) := by
  obtain ⟨sess, f⟩ := req
  have hs' : sess = none := hs
  subst hs'
  exact ⟨rfl, rfl, rfl⟩

/-- C5 witness: a concrete unauthenticated request. -/
theorem handlers_require_auth_witness :
    action allOkSchemas acceptAll id dbKody ⟨none, formPlain⟩ = ⟨.authRequired, dbKody, []⟩ ∧
      loader dbKody ⟨none, formPlain⟩ = (.authRequired, []) ∧
      notesNewLoader ⟨none, formPlain⟩ = (.authRequired, []) :=
  handlers_require_auth allOkSchemas acceptAll id dbKody ⟨none, formPlain⟩ rfl

/-- C6: when the authenticated user id matches no User row, the profile-edit
loader throws the session logout redirecting to `/` (after its one lookup),
instead of returning user data. -/
theorem loader_unknown_user_logs_out (db : Db) (req : Request) (userId : String)
    (hs : req.session = some userId) (hnone : findUserById db userId = none) :
    loader db req = (.logoutRedirect "/", [DbOp.findById userId]) := by
  obtain ⟨sess, f⟩ := req
  have hs' : sess = some userId := hs
  subst hs'
  simp only [loader, hnone]

/-- C6 witness: a concrete authenticated request against an empty database. -/
theorem loader_unknown_user_logs_out_witness :
    loader [] ⟨some "u1", formPlain⟩ = (.logoutRedirect "/", [DbOp.findById "u1"]) :=
  loader_unknown_user_logs_out [] ⟨some "u1", formPlain⟩ "u1" rfl rfl

/-- C8: no response of the profile-edit action echoes a submitted password
back: any submission it returns has the password entries removed from the
payload, and for a non-submit intent they are removed from the parsed value
as well. -/
theorem action_never_echoes_passwords (S : Schemas) (verify : String → String → Bool)
    (hash : String → String) (db : Db) (req : Request) :
    noPasswordEcho (action S verify hash db req).result := by
  obtain ⟨sess, f⟩ := req
  cases sess with
  | none => trivial
  | some userId =>
    by_cases hi : f.intent = "submit"
    · cases hv : (parseProfileSubmission S verify db userId f).1.value with
      | none =>
          rw [action_submit_value_none S verify hash db userId f hi hv]
          exact ⟨rfl, rfl⟩
      | some data =>
          cases hw : findUserById db userId with
          | none =>
              rw [action_submit_no_user S verify hash db userId f data hi hv hw]
              trivial
          | some w =>
              rw [action_submit_redirect S verify hash db userId f data w hi hv hw]
              trivial
    · rw [action_not_submit S verify hash db userId f hi]
      cases hval : (parseProfileSubmission S verify db userId f).1.value with
      | none => simp [noPasswordEcho, scrubPayload, hval]
      | some w => simp [noPasswordEcho, scrubPayload, scrubValue, hval]

/-- C8 witness: a concrete submission carrying both password fields. -/
theorem action_never_echoes_passwords_witness :
    noPasswordEcho (action allOkSchemas acceptAll id dbKody ⟨some "u1", formNewPw⟩).result :=
  action_never_echoes_passwords allOkSchemas acceptAll id dbKody ⟨some "u1", formNewPw⟩

/-- C2: for every authenticated submit submission that passes validation
(against a database in which the session's user row exists, as the update
presumes), the action rewrites the row matching the session's user id with
the submitted name, username and email, and returns a redirect with HTTP
status 302 to `/users/` followed by the updated row's username (the
submitted one). -/
theorem submit_updates_user_and_redirects (S : Schemas)
    (verify : String → String → Bool) (hash : String → String) (db : Db)
    (userId : String) (f : FormPayload) (data : ProfileValue) (nm : String) (w : User)
    (hi : f.intent = "submit")
    (hv : (parseProfileSubmission S verify db userId f).1.value = some data)
    (hn : data.name = some nm)
    (hw : findUserById db userId = some w) :
    (action S verify hash db ⟨some userId, f⟩).result =
        .redirect 302 ("/users/" ++ data.username) ∧
      (action S verify hash db ⟨some userId, f⟩).db =
        db.map (applyUpdate hash userId data) ∧
      ∀ u : User, u.id = userId →
        (applyUpdate hash userId data u).name = some nm ∧
          (applyUpdate hash userId data u).username = data.username ∧
          (applyUpdate hash userId data u).email = data.email := by
  rw [action_submit_redirect S verify hash db userId f data w hi hv hw]
  refine ⟨rfl, rfl, ?_⟩
  intro u hu
  have hbeq : (u.id == userId) = true := by simp [hu]
  simp [applyUpdate, hbeq, hn]

/-- C2 witness: a concrete valid submission by user `u1`. -/
theorem submit_updates_user_and_redirects_witness :
    (action allOkSchemas acceptAll id dbKody ⟨some "u1", formPlain⟩).result =
        .redirect 302 ("/users/" ++ "kody") ∧
      (action allOkSchemas acceptAll id dbKody ⟨some "u1", formPlain⟩).db =
        dbKody.map (applyUpdate id "u1"
          ⟨some "Kody", "kody", none, none, "kody@kcd.dev"⟩) ∧
      ∀ u : User, u.id = "u1" →
        (applyUpdate id "u1" ⟨some "Kody", "kody", none, none, "kody@kcd.dev"⟩ u).name
            = some "Kody" ∧
          (applyUpdate id "u1" ⟨some "Kody", "kody", none, none, "kody@kcd.dev"⟩ u).username
            = "kody" ∧
          (applyUpdate id "u1" ⟨some "Kody", "kody", none, none, "kody@kcd.dev"⟩ u).email
            = "kody@kcd.dev" :=
  submit_updates_user_and_redirects allOkSchemas acceptAll id dbKody "u1" formPlain
    ⟨some "Kody", "kody", none, none, "kody@kcd.dev"⟩ "Kody"
    ⟨"u1", some "Kody", "kody", "kody@kcd.dev", "h1"⟩ rfl (by decide) rfl (by decide)

/-- C9: for a valid authenticated submit submission, when `newPassword` is
absent or empty the update rewrites only the user's name, username and email
and leaves the stored password hash unchanged; the hash is rewritten — to a
freshly computed hash of `newPassword` — exactly when a non-empty
`newPassword` was submitted, and validation only lets such a submission
through together with a non-empty, verified `currentPassword`. -/
theorem update_password_frame (S : Schemas)
    (verify : String → String → Bool) (hash : String → String) (db : Db)
    (userId : String) (f : FormPayload) (data : ProfileValue) (w : User)
    (hi : f.intent = "submit")
    (hv : (parseProfileSubmission S verify db userId f).1.value = some data)
    (hw : findUserById db userId = some w) :
    (optTruthy data.newPassword = false →
      (action S verify hash db ⟨some userId, f⟩).db =
        db.map fun u =>
          if u.id == userId then
            { u with
              name := match data.name with
                | some n => some n
                | none => u.name
              username := data.username
              email := data.email }
          else u) ∧
    (optTruthy data.newPassword = true →
      optTruthy data.currentPassword = true ∧
        verifyUserPassword verify db userId (data.currentPassword.getD "") ≠ none ∧
        (action S verify hash db ⟨some userId, f⟩).db =
          db.map fun u =>
            if u.id == userId then
              { u with
                name := match data.name with
                  | some n => some n
                  | none => u.name
                username := data.username
                email := data.email
                passwordHash := hash (data.newPassword.getD "") }
            else u) := by
  have hact := action_submit_redirect S verify hash db userId f data w hi hv hw
  have hab : baseAborted f = false := by
    by_cases h : baseAborted f = true
    · rw [parse_aborted_value_none S verify db userId f h] at hv
      cases hv
    · simpa using h
  obtain ⟨hnil, hdata⟩ := (parse_value_some_iff S verify db userId f data hab).mp hv
  have hrnil : (refineChecks verify db userId (toProfileValue f)).1 = [] :=
    (List.append_eq_nil.mp hnil).2
  constructor
  · intro hnp
    rw [hact]
    have hfun : applyUpdate hash userId data = fun u =>
        if u.id == userId then
          { u with
            name := match data.name with
              | some n => some n
              | none => u.name
            username := data.username
            email := data.email }
        else u := by
      funext u
      unfold applyUpdate
      by_cases hid : (u.id == userId) = true
      · simp [hid, hnp]
      · simp [Bool.eq_false_iff.mpr hid]
    rw [hfun]
  · intro hnp
    have hfacts := refine_nil_password_facts verify db userId (toProfileValue f) hrnil
      (by rw [← hdata]; exact hnp)
    rw [← hdata] at hfacts
    refine ⟨hfacts.1, hfacts.2, ?_⟩
    rw [hact]
    have hfun : applyUpdate hash userId data = fun u =>
        if u.id == userId then
          { u with
            name := match data.name with
              | some n => some n
              | none => u.name
            username := data.username
            email := data.email
            passwordHash := hash (data.newPassword.getD "") }
        else u := by
      funext u
      unfold applyUpdate
      by_cases hid : (u.id == userId) = true
      · simp [hid, hnp]
      · simp [Bool.eq_false_iff.mpr hid]
    rw [hfun]

/-- C9 witness: user `u1` changes the password with a verified current
password; the hash is recomputed, name, username and email are rewritten. -/
theorem update_password_frame_witness :
    optTruthy (some "oldpass") = true ∧
      verifyUserPassword acceptAll dbKody "u1" "oldpass" ≠ none ∧
      (action allOkSchemas acceptAll (fun s => String.append "H" s) dbKody
          ⟨some "u1", formNewPw⟩).db =
        dbKody.map fun u =>
          if u.id == "u1" then
            { u with
              name := some "Kody"
              username := "kody"
              email := "kody@kcd.dev"
              passwordHash := String.append "H" "newpass" }
          else u :=
  (update_password_frame allOkSchemas acceptAll (fun s => String.append "H" s) dbKody "u1"
      formNewPw ⟨some "Kody", "kody", some "oldpass", some "newpass", "kody@kcd.dev"⟩
      ⟨"u1", some "Kody", "kody", "kody@kcd.dev", "h1"⟩ rfl (by decide) (by decide)).2
    (by decide)

/-- C7: in the profile form schema, name is optional and each password field
is optional (a present value must satisfy the password schema or be the empty
string), while username and email are required: a payload omitting username
or email always fails validation, and a payload omitting only name can still
succeed — here with an empty-string `currentPassword` accepted through the
union's empty branch even though the password schema itself rejects it. -/
theorem schema_field_optionality :
    (∀ (S : Schemas) (verify : String → String → Bool) (db : Db)
        (userId : String) (f : FormPayload),
      f.username = none ∨ f.email = none →
        (parseProfileSubmission S verify db userId f).1.value = none) ∧
      strictSchemas.passwordOk "" = false ∧
      (parseProfileSubmission strictSchemas acceptAll [] "u1" formNoName).1.value =
        some ⟨none, "kody", some "", none, "kody@kcd.dev"⟩ := by
  refine ⟨?_, by decide, by decide⟩
  intro S verify db userId f h
  apply parse_aborted_value_none
  rcases h with h | h <;> simp [baseAborted, h]

/-- C7 witness: a concrete payload without a username fails validation. -/
theorem schema_field_optionality_witness :
    (parseProfileSubmission allOkSchemas acceptAll [] "u1" formNoUsername).1.value = none :=
  schema_field_optionality.1 allOkSchemas acceptAll [] "u1" formNoUsername (Or.inl rfl)

/-- C3 counterexample: in `dbOther` user `u2` (not the session user `u1`)
already owns the submitted username `kody` and the submission has intent
submit, yet no `username` duplicate message is attached to the response —
the required email field is absent, so the base parse aborts and the
uniqueness refinement never runs (the action still answers with a 400 that
carries only the missing-email error). -/
theorem uniqueness_error_counterexample :
    (∃ w, findUserByUsername dbOther "kody" = some w ∧ w.id ≠ "u1") ∧
      formTakenNoEmail.intent = "submit" ∧
      formTakenNoEmail.username = some "kody" ∧
      ("username", "A user already exists with this username") ∉
        actionErrors (action allOkSchemas acceptAll id dbOther
          ⟨some "u1", formTakenNoEmail⟩).result := by
  refine ⟨⟨⟨"u2", none, "kody", "kody@kcd.dev", "h2"⟩, by decide, by decide⟩, rfl, rfl, ?_⟩
  decide

/-- C3 (amended): for every submit submission whose payload contains both
required fields (username and email), if another user already owns the
submitted username or the submitted email, the corresponding field-level
message is attached, the action answers with a 400 error response, and no
record is updated. -/
theorem uniqueness_error_amended (S : Schemas) (verify : String → String → Bool)
    (hash : String → String) (db : Db) (userId : String) (f : FormPayload)
    (un em : String) (hi : f.intent = "submit")
    (hun : f.username = some un) (hem : f.email = some em) :
    (∀ w, findUserByUsername db un = some w → w.id ≠ userId →
      ("username", "A user already exists with this username") ∈
          actionErrors (action S verify hash db ⟨some userId, f⟩).result ∧
        (∃ s, (action S verify hash db ⟨some userId, f⟩).result = .error 400 s) ∧
        (action S verify hash db ⟨some userId, f⟩).db = db) ∧
    (∀ w, findUserByEmail db em = some w → w.id ≠ userId →
      ("email", "A user already exists with this email") ∈
          actionErrors (action S verify hash db ⟨some userId, f⟩).result ∧
        (∃ s, (action S verify hash db ⟨some userId, f⟩).result = .error 400 s) ∧
        (action S verify hash db ⟨some userId, f⟩).db = db) := by
  have hab : baseAborted f = false := by simp [baseAborted, hun, hem]
  constructor
  · intro w hw hne
    have hmem := refine_username_dup_mem verify db userId (toProfileValue f) w
      (by simpa [toProfileValue, hun] using hw) hne
    obtain ⟨h1, h2, _, h4⟩ := action_mem_refine_errors S verify hash db userId f _ hab hmem
    exact ⟨h1, h4 hi, h2⟩
  · intro w hw hne
    have hmem := refine_email_dup_mem verify db userId (toProfileValue f) w
      (by simpa [toProfileValue, hem] using hw) hne
    obtain ⟨h1, h2, _, h4⟩ := action_mem_refine_errors S verify hash db userId f _ hab hmem
    exact ⟨h1, h4 hi, h2⟩

/-- C3 witness: with both required fields present, submitting the taken
username `kody` as user `u1` gets the duplicate message and a 400, with the
database untouched. -/
theorem uniqueness_error_amended_witness :
    ("username", "A user already exists with this username") ∈
        actionErrors (action allOkSchemas acceptAll id dbOther ⟨some "u1", formTaken⟩).result ∧
      (∃ s, (action allOkSchemas acceptAll id dbOther ⟨some "u1", formTaken⟩).result =
        .error 400 s) ∧
      (action allOkSchemas acceptAll id dbOther ⟨some "u1", formTaken⟩).db = dbOther :=
  (uniqueness_error_amended allOkSchemas acceptAll id dbOther "u1" formTaken
      "kody" "other@kcd.dev" rfl rfl rfl).1
    ⟨"u2", none, "kody", "kody@kcd.dev", "h2"⟩ (by decide) (by decide)

/-- C4 counterexample: the submission provides a non-empty `newPassword` and
no `currentPassword`, yet the "Must provide current password to change
password." message is not attached — the required email field is absent, so
the base parse aborts and the password-pair refinement never runs. -/
theorem password_pair_counterexample :
    optTruthy formNewPwNoEmail.newPassword = true ∧
      formNewPwNoEmail.currentPassword = none ∧
      ("newPassword", "Must provide current password to change password.") ∉
        actionErrors (action allOkSchemas acceptAll id []
          ⟨some "u1", formNewPwNoEmail⟩).result := by
  decide

/-- C4 (amended): for every submission whose payload contains both required
fields (username and email), providing a non-empty `newPassword` while the
`currentPassword` is absent or empty attaches "Must provide current password
to change password." on `newPassword`; providing both non-empty while the
current password fails verification against the stored hash attaches
"Incorrect password." on `currentPassword`; in either case the submission
does not succeed (no redirect) and no record is updated. -/
theorem password_pair_amended (S : Schemas) (verify : String → String → Bool)
    (hash : String → String) (db : Db) (userId : String) (f : FormPayload)
    (un em : String) (hun : f.username = some un) (hem : f.email = some em) :
    (optTruthy f.newPassword = true → optTruthy f.currentPassword = false →
      ("newPassword", "Must provide current password to change password.") ∈
          actionErrors (action S verify hash db ⟨some userId, f⟩).result ∧
        (action S verify hash db ⟨some userId, f⟩).db = db ∧
        ∀ st loc, (action S verify hash db ⟨some userId, f⟩).result ≠ .redirect st loc) ∧
    (optTruthy f.currentPassword = true → optTruthy f.newPassword = true →
      verifyUserPassword verify db userId (f.currentPassword.getD "") = none →
      ("currentPassword", "Incorrect password.") ∈
          actionErrors (action S verify hash db ⟨some userId, f⟩).result ∧
        (action S verify hash db ⟨some userId, f⟩).db = db ∧
        ∀ st loc, (action S verify hash db ⟨some userId, f⟩).result ≠ .redirect st loc) := by
  have hab : baseAborted f = false := by simp [baseAborted, hun, hem]
  constructor
  · intro hnp hcp
    have hmem := refine_pair_mem verify db userId (toProfileValue f)
      (by simpa [toProfileValue] using hnp) (by simpa [toProfileValue] using hcp)
    obtain ⟨h1, h2, h3, _⟩ := action_mem_refine_errors S verify hash db userId f _ hab hmem
    exact ⟨h1, h2, h3⟩
  · intro hcp hnp hver
    have hmem := refine_verify_mem verify db userId (toProfileValue f)
      (by simpa [toProfileValue] using hcp) (by simpa [toProfileValue] using hnp)
      (by simpa [toProfileValue] using hver)
    obtain ⟨h1, h2, h3, _⟩ := action_mem_refine_errors S verify hash db userId f _ hab hmem
    exact ⟨h1, h2, h3⟩

/-- C4 witness: a complete payload with a new password and no current
password gets the pair message, no redirect, and an unchanged database. -/
theorem password_pair_amended_witness :
    ("newPassword", "Must provide current password to change password.") ∈
        actionErrors (action allOkSchemas acceptAll id dbKody ⟨some "u1", formNpNoCp⟩).result ∧
      (action allOkSchemas acceptAll id dbKody ⟨some "u1", formNpNoCp⟩).db = dbKody ∧
      ∀ st loc, (action allOkSchemas acceptAll id dbKody ⟨some "u1", formNpNoCp⟩).result ≠
        .redirect st loc :=
  (password_pair_amended allOkSchemas acceptAll id dbKody "u1" formNpNoCp
      "kody" "kody@kcd.dev" rfl rfl).1 (by decide) rfl

/-- C1 counterexample: not every POST performs the described lookups — a
submit POST missing the required username runs no database operation at all
(the base parse aborts before the refinement), and a fully valid POST
without a password change performs the two uniqueness lookups and the update
but no password-verification lookup. -/
theorem action_lookups_counterexample :
    (action allOkSchemas acceptAll id [] ⟨some "u1", formNoUsername⟩).trace = [] ∧
      (action allOkSchemas acceptAll id dbKody ⟨some "u1", formPlain⟩).trace =
        [DbOp.findByUsername "kody", DbOp.findByEmail "kody@kcd.dev",
         DbOp.updateUser "u1"] := by
  exact ⟨rfl, by decide⟩

/-- C1 (amended): for every POST with an authenticated session whose payload
contains the required username and email fields, the action validates the
payload against the profile schema and performs the two uniqueness lookups
(one by username, one by email), plus the password-verification lookup
exactly when both password fields are non-empty; it then either updates the
user record (appending the single update write) and redirects, or returns the
submission — with its validation errors and a 400 status for a failed submit
— leaving the database unchanged. -/
theorem action_lookups_amended (S : Schemas) (verify : String → String → Bool)
    (hash : String → String) (db : Db) (userId : String) (f : FormPayload)
    (un em : String) (hun : f.username = some un) (hem : f.email = some em) :
    (∃ upd, (upd = [] ∨ upd = [DbOp.updateUser userId]) ∧
      (action S verify hash db ⟨some userId, f⟩).trace =
        [DbOp.findByUsername un, DbOp.findByEmail em] ++
          (if optTruthy f.currentPassword && optTruthy f.newPassword
           then [DbOp.findById userId] else []) ++ upd) ∧
    ((∃ s, (action S verify hash db ⟨some userId, f⟩).result = .idle s ∧
        (action S verify hash db ⟨some userId, f⟩).db = db) ∨
     (∃ s, (action S verify hash db ⟨some userId, f⟩).result = .error 400 s ∧
        s.errors ≠ [] ∧ (action S verify hash db ⟨some userId, f⟩).db = db) ∨
     ((action S verify hash db ⟨some userId, f⟩).result = .updateFailed ∧
        (action S verify hash db ⟨some userId, f⟩).db = db) ∨
     (∃ data, (action S verify hash db ⟨some userId, f⟩).result =
          .redirect 302 ("/users/" ++ data.username) ∧
        (action S verify hash db ⟨some userId, f⟩).db =
          db.map (applyUpdate hash userId data))) := by
  have hab : baseAborted f = false := by simp [baseAborted, hun, hem]
  have hp2 : (parseProfileSubmission S verify db userId f).2 =
      [DbOp.findByUsername un, DbOp.findByEmail em] ++
        (if optTruthy f.currentPassword && optTruthy f.newPassword
         then [DbOp.findById userId] else []) := by
    rw [parse_not_aborted S verify db userId f hab]
    dsimp only
    rw [refine_trace_shape]
    simp [toProfileValue, hun, hem]
  rcases action_result_cases S verify hash db userId f with
    ⟨s, hres, hdb, htr⟩ | ⟨s, hres, hne, hdb, htr⟩ | ⟨hres, hdb, htr⟩ | ⟨data, hres, hdb, htr⟩
  · exact ⟨⟨[], Or.inl rfl, by rw [htr, hp2, List.append_nil]⟩, Or.inl ⟨s, hres, hdb⟩⟩
  · exact ⟨⟨[], Or.inl rfl, by rw [htr, hp2, List.append_nil]⟩,
      Or.inr (Or.inl ⟨s, hres, hne, hdb⟩)⟩
  · exact ⟨⟨[DbOp.updateUser userId], Or.inr rfl, by rw [htr, hp2]⟩,
      Or.inr (Or.inr (Or.inl ⟨hres, hdb⟩))⟩
  · exact ⟨⟨[DbOp.updateUser userId], Or.inr rfl, by rw [htr, hp2]⟩,
      Or.inr (Or.inr (Or.inr ⟨data, hres, hdb⟩))⟩

/-- C1 witness: a concrete authenticated submit with both password fields
non-empty: both uniqueness lookups, the verification lookup, then the update. -/
theorem action_lookups_amended_witness :
    (∃ upd, (upd = [] ∨ upd = [DbOp.updateUser "u1"]) ∧
      (action allOkSchemas acceptAll id dbKody ⟨some "u1", formNewPw⟩).trace =
        [DbOp.findByUsername "kody", DbOp.findByEmail "kody@kcd.dev"] ++
          (if optTruthy formNewPw.currentPassword && optTruthy formNewPw.newPassword
           then [DbOp.findById "u1"] else []) ++ upd) ∧
    ((∃ s, (action allOkSchemas acceptAll id dbKody ⟨some "u1", formNewPw⟩).result =
          .idle s ∧
        (action allOkSchemas acceptAll id dbKody ⟨some "u1", formNewPw⟩).db = dbKody) ∨
     (∃ s, (action allOkSchemas acceptAll id dbKody ⟨some "u1", formNewPw⟩).result =
          .error 400 s ∧
        s.errors ≠ [] ∧
        (action allOkSchemas acceptAll id dbKody ⟨some "u1", formNewPw⟩).db = dbKody) ∨
     ((action allOkSchemas acceptAll id dbKody ⟨some "u1", formNewPw⟩).result =
          .updateFailed ∧
        (action allOkSchemas acceptAll id dbKody ⟨some "u1", formNewPw⟩).db = dbKody) ∨
     (∃ data, (action allOkSchemas acceptAll id dbKody ⟨some "u1", formNewPw⟩).result =
          .redirect 302 ("/users/" ++ data.username) ∧
        (action allOkSchemas acceptAll id dbKody ⟨some "u1", formNewPw⟩).db =
          dbKody.map (applyUpdate id "u1" data))) :=
  action_lookups_amended allOkSchemas acceptAll id dbKody "u1" formNewPw
    "kody" "kody@kcd.dev" rfl rfl
